import Mathlib

/-!
Shallow embedding of the Konto personal-finance ledger (Account.py, Pools.py,
Fund.py) for checking its natural-language specification.

Modelling conventions:
* monetary amounts (pandas float64 in the source) are `Rat`; the spec treats
  amounts as decimals and disclaims float rounding drift;
* calendar dates are explicit year/month/day triples; pandas timestamps are
  midnight-aligned dates throughout the source;
* Python dicts are association lists with first-match lookup and
  replace-or-append assignment (insertion order preserved, keys unique);
* Python exceptions are the `PyErr` error type of an `Except` result;
* the interactive prompt (`input()`) is an oracle `Nat → List String` indexed
  by a running prompt counter, so the number of prompts issued is observable.
-/
/-- A calendar date (year, month, day). -/
structure KDate where
  year : Nat
  month : Nat
  day : Nat
deriving DecidableEq

/-- Strict lexicographic (chronological) order on dates. -/
def KDate.ltB (a b : KDate) : Bool :=
  decide (a.year < b.year ∨ (a.year = b.year ∧
    (a.month < b.month ∨ (a.month = b.month ∧ a.day < b.day))))

/-- Exact rational addition computed through `mkRat` (the library `Rat.add`
does not reduce definitionally; this form does, and `ratAdd_eq` shows it is
the same operation). -/
def ratAdd (a b : Rat) : Rat :=
  mkRat (a.num * b.den + b.num * a.den) (a.den * b.den)

/-- The sum of a list of amounts (`Series.sum` over the Value column). -/
def ratSum (l : List Rat) : Rat := l.foldr ratAdd 0

/-- A parsed csv row before ingestion: the Date, Reference and Value columns. -/
structure CsvRow where
  date : KDate
  ref : String
  value : Rat

/-- A row of an account DataFrame: Reference, Value and the optional Tags
cell (`none` while the Tags column is absent or the cell is NaN). -/
structure TRow where
  date : KDate
  ref : String
  value : Rat
  tags : Option (List String)
deriving DecidableEq

/-- A pandas index value: a datetime (after `set_index` on Date) or a plain
positional integer (the default RangeIndex of a freshly read csv). -/
inductive PyIdx where
  | d (dt : KDate)
  | i (n : Nat)
deriving DecidableEq

/-- A DataFrame: rows paired with their index value, plus whether the Tags
column exists. -/
structure Frame where
  rows : List (PyIdx × TRow)
  hasTagsCol : Bool

/-- Python exceptions observable in the embedded fragment. -/
inductive PyErr where
  | typeError (msg : String)
  | valueError (msg : String)
  | nameError (nm : String)
  | keyError (key : String)
  | attributeError (attr : String)
deriving DecidableEq

/-- Decidable equality of results, so that concrete runs can be checked by
evaluation. -/
instance {ε α : Type} [DecidableEq ε] [DecidableEq α] : DecidableEq (Except ε α) := fun x y =>
  match x, y with
  | .error e, .error f =>
    if h : e = f then .isTrue (by rw [h]) else .isFalse (by intro hh; cases hh; exact h rfl)
  | .error _, .ok _ => .isFalse (by intro hh; cases hh)
  | .ok _, .error _ => .isFalse (by intro hh; cases hh)
  | .ok a, .ok b =>
    if h : a = b then .isTrue (by rw [h]) else .isFalse (by intro hh; cases hh; exact h rfl)

/-- A Python dict key as used by the tagging dictionaries: either a plain
reference string or a (reference, value) tuple.  Python `==` across the two
shapes is always False, which the derived equality mirrors. -/
inductive PKey where
  | s (v : String)
  | pair (r : String) (v : Rat)
deriving DecidableEq

/-- The plain reference → tag-list dictionary (`tagdict`). -/
abbrev TagDict := List (String × List String)

/-- The (reference, value) → tag-list dictionary (`tagdict_on_price`); its
keys are `PKey`s because Python dicts are heterogeneous and the membership
probe in `account.tag` compares a bare string against the stored keys. -/
abbrev PriceDict := List (PKey × List String)

/-- Python dict assignment `d[k] = v`: replace an existing binding in place,
else append at the end. -/
def dictInsert {κ α : Type} [BEq κ] : List (κ × α) → κ → α → List (κ × α)
  | [], k, v => [(k, v)]
  | (k', v') :: rest, k, v =>
    if k' == k then (k, v) :: rest else (k', v') :: dictInsert rest k v

/-- The two dictionaries of the tag resolver (`self.tagdict` and
`self.tagdict_on_price` of `account`). -/
structure TagState where
  tagdict : TagDict
  tagdict_on_price : PriceDict
deriving DecidableEq

/-- One iteration of the tagging loop of `account.tag` (Account.py lines
106-122) on a row with the given Reference and Value.  `cnt` counts prompts
issued so far; `oracle n` is the user's answer to the n-th prompt, already
split on spaces.

The first branch tests `row[0] in self.tagdict_on_price`: the probe is the
bare reference string compared against the stored keys.  When the branch is
taken and the exact (reference, value) tuple is absent, the code prompts and
then executes `tagdict_on_price[(row[0], row[1])] = tags_to_append` — a
subscript assignment to the bare name `tagdict_on_price`, which is neither a
local nor a module global, so Python raises NameError after consuming the
prompt. -/
def tagOne (st : TagState) (cnt : Nat) (oracle : Nat → List String)
    (ref : String) (value : Rat) : Except PyErr (List String × TagState × Nat) :=
  if (st.tagdict_on_price.lookup (PKey.s ref)).isSome then
    match st.tagdict_on_price.lookup (PKey.pair ref value) with
    | some ts => .ok (ts, st, cnt)
    | none => .error (.nameError "tagdict_on_price")
  else
    match st.tagdict.lookup ref with
    | some ts => .ok (ts, st, cnt)
    | none =>
      let ts := oracle cnt
      .ok (ts, { st with tagdict := dictInsert st.tagdict ref ts }, cnt + 1)

/-- The full tagging loop of `account.tag`: iterates the rows of
`self.sort_data` in store order, producing the `tagcolumn` list plus the
final dictionary state and prompt count. -/
def tagAll (oracle : Nat → List String) :
    TagState → Nat → List TRow → Except PyErr (List (List String) × TagState × Nat)
  | st, cnt, [] => .ok ([], st, cnt)
  | st, cnt, r :: rs =>
    match tagOne st cnt oracle r.ref r.value with
    | .error e => .error e
    | .ok (ts, st', cnt') =>
      match tagAll oracle st' cnt' rs with
      | .error e => .error e
      | .ok (col, st'', cnt'') => .ok (ts :: col, st'', cnt'')

/-- The `account` class state: validity window, DataFrame, the two tagging
dictionaries, the tagged flag, opening balance and the `value` field computed
in `__init__`. -/
structure account where
  from_date : KDate
  to_date : KDate
  data : Frame
  tagdict : TagDict
  tagdict_on_price : PriceDict
  data_tagged : Bool
  val_at_open : Rat
  value : Rat

/-- The constructor `account.__init__` after the csv has been parsed into rows (file IO and
string-to-date parsing are out of scope per the spec; the type checks on
`file` and `val_at_open` are discharged by the Lean types).  `set_index` on
Date makes each row's index value its date; the Tags column does not exist
yet; `value = val_at_open + data.Value.sum()`. -/
def account.init (rows : List CsvRow) (from_date to_date : KDate)
    (val_at_open : Rat) : account :=
  { from_date := from_date
    to_date := to_date
    data :=
      { rows := rows.map (fun r => (PyIdx.d r.date, ⟨r.date, r.ref, r.value, none⟩))
        hasTagsCol := false }
    tagdict := []
    tagdict_on_price := []
    data_tagged := false
    val_at_open := val_at_open
    value := ratAdd val_at_open (ratSum (rows.map (fun r => r.value))) }

/-- The method `account.tag`: optional replacement dictionaries default to the account's
own (lines 87-100, a full replace); the loop tags every row in store order;
on success `data_tagged` is set and the Tags column is written. -/
def account.tag (a : account) (tagging_dict : Option TagDict)
    (tagging_dict_on_price : Option PriceDict) (oracle : Nat → List String) :
    Except PyErr (account × Nat) :=
  let td := tagging_dict.getD a.tagdict
  let tdp := tagging_dict_on_price.getD a.tagdict_on_price
  match tagAll oracle ⟨td, tdp⟩ 0 (a.data.rows.map Prod.snd) with
  | .error e => .error e
  | .ok (col, st, cnt) =>
    .ok ({ a with
      tagdict := st.tagdict
      tagdict_on_price := st.tagdict_on_price
      data_tagged := true
      data :=
        { rows := (a.data.rows.zip col).map
            (fun p => (p.1.1, { p.1.2 with tags := some p.2 }))
          hasTagsCol := true } }, cnt)

/-- A resampling period code: the frequency strings D, W, M, Y accepted by
`account.resample` and `account.tagresample`. -/
inductive Freq where
  | day
  | week
  | month
  | year
deriving DecidableEq

/-- Serial day number of a date (days since 1970-01-01, proleptic Gregorian);
the standard civil-calendar conversion. -/
def daysFromCivil (dt : KDate) : Int :=
  let y : Int := (dt.year : Int) - (if dt.month ≤ 2 then 1 else 0)
  let era : Int := (if 0 ≤ y then y else y - 399) / 400
  let yoe : Int := y - era * 400
  let mp : Int := ((dt.month : Int) + 9) % 12
  let doy : Int := (153 * mp + 2) / 5 + (dt.day : Int) - 1
  let doe : Int := yoe * 365 + yoe / 4 - yoe / 100 + doy
  era * 146097 + doe - 719468

/-- Inverse of `daysFromCivil`. -/
def civilFromDays (z0 : Int) : KDate :=
  let z : Int := z0 + 719468
  let era : Int := (if 0 ≤ z then z else z - 146096) / 146097
  let doe : Int := z - era * 146097
  let yoe : Int := (doe - doe / 1460 + doe / 36524 - doe / 146096) / 365
  let y : Int := yoe + era * 400
  let doy : Int := doe - (365 * yoe + yoe / 4 - yoe / 100)
  let mp : Int := (5 * doy + 2) / 153
  let d : Int := doy - (153 * mp + 2) / 5 + 1
  let m : Int := mp + (if mp < 10 then 3 else -9)
  ⟨(y + (if m ≤ 2 then 1 else 0)).toNat, m.toNat, d.toNat⟩

/-- Modelled from the spec: the calendar-bucketing collaborator.  The source
delegates bucketing to `pandas.DataFrame.resample`, declared out of scope by
the spec (§1); the spec interface (§4.2) maps each timestamp to the start of
the calendar period containing it (day → the day, week → the first day of
the week, month → the 1st, year → Jan 1). -/
def bucket : Freq → KDate → KDate
  | .day, dt => dt
  | .week, dt =>
    let s := daysFromCivil dt
    civilFromDays (s - (s - 4).emod 7)
  | .month, dt => ⟨dt.year, dt.month, 1⟩
  | .year, dt => ⟨dt.year, 1, 1⟩

/-- Insert a bucket key into a strictly sorted key list, keeping it strictly
sorted and duplicate-free (the sorted unique group keys of a groupby). -/
def insertKey (d : KDate) : List KDate → List KDate
  | [] => [d]
  | x :: xs =>
    if d = x then x :: xs
    else if d.ltB x then d :: x :: xs
    else x :: insertKey d xs

/-- The sorted, duplicate-free list of bucket keys of a record set. -/
def sortedKeys (l : List KDate) : List KDate := l.foldr insertKey []

/-- Group the rows by the bucket of their date and sum the Value column per
bucket, emitting buckets in chronological order: the observable behaviour of
`resample(frequency)['Value'].sum()`.  Buckets with no rows are omitted (the
spec leaves the empty-bucket convention to the underlying library). -/
def resampleSum (f : Freq) (rows : List TRow) : List (KDate × Rat) :=
  (sortedKeys (rows.map (fun r => bucket f r.date))).map
    (fun k =>
      (k, ratSum ((rows.filter (fun r => decide (bucket f r.date = k))).map
            (fun r => r.value))))

/-- The membership test `set(list_of_tags).issubset(set(tlist))` used by the
tag filter. -/
def subsetB (req ts : List String) : Bool := req.all (fun t => ts.contains t)

/-- The rows kept by the tag filter: Tags cell present and a superset of the
required tags. -/
def keptRows (req : List String) (rows : List TRow) : List TRow :=
  rows.filter (fun r =>
    match r.tags with
    | some ts => subsetB req ts
    | none => false)

/-- The boolean-mask construction `data.Tags.apply(lambda tlist: ...)`
followed by row selection: a missing Tags cell is NaN, and `set(nan)` raises
TypeError. -/
def tagFilter (req : List String) : List TRow → Except PyErr (List TRow)
  | [] => .ok []
  | r :: rs =>
    match r.tags with
    | none => .error (.typeError "argument of type float is not iterable")
    | some ts =>
      match tagFilter req rs with
      | .error e => .error e
      | .ok kept => .ok (if subsetB req ts then r :: kept else kept)

/-- Common body of `account.tagresample` and `konto.tagresample` (the two
methods are textually identical): the `list_of_tags` / `frequency` isinstance
checks are discharged by the Lean types; `raise TagError(...)` evaluates the
name TagError, which is defined nowhere in the package and is not a builtin,
so Python raises NameError; `self.data['Tags']` raises KeyError when the
Tags column does not exist. -/
def tagResampleCore (data_tagged : Bool) (fr : Frame) (req : List String)
    (f : Freq) : Except PyErr (List (KDate × Rat)) :=
  if !data_tagged then .error (.nameError "TagError")
  else if !fr.hasTagsCol then .error (.keyError "Tags")
  else
    match tagFilter req (fr.rows.map Prod.snd) with
    | .error e => .error e
    | .ok kept => .ok (resampleSum f kept)

/-- The method `account.tagresample`. -/
def account.tagresample (a : account) (req : List String) (f : Freq) :
    Except PyErr (List (KDate × Rat)) :=
  tagResampleCore a.data_tagged a.data req f

/-- The method `account.resample`: plain resampling of the whole frame, observed at the
per-bucket sums of the Value column (the method returns the groupby object;
its Value sums are the observation all claims are about). -/
def account.resample (a : account) (f : Freq) : List (KDate × Rat) :=
  resampleSum f (a.data.rows.map Prod.snd)

/-- The method `account.endow` after the new csv has been parsed into rows.  The range
check runs before anything else mutates; on success the code appends
`new_data[[date not in self.data.index.values for date in
new_data.index.values]]`.  `endow` never calls `set_index` on `new_data`, so
`new_data.index.values` are the positional integers 0, 1, ... of the default
RangeIndex, compared against the store's datetime index values. -/
def account.endow (a : account) (newRows : List CsvRow)
    (new_from new_to : KDate) (new_val_at_open : Rat) : Except PyErr account :=
  if a.to_date.ltB new_from then
    .error (.valueError "New from_date must be older or the same as old to_date.")
  else if new_to.ltB a.from_date then
    .error (.valueError "New to_date must be later or the same as the old from_date.")
  else
    let oldIdx := a.data.rows.map Prod.fst
    let newEntries :=
      (newRows.enum.filter
        (fun p => !(oldIdx.any (fun x => decide (x = PyIdx.i p.1))))).map
        (fun p => (PyIdx.i p.1, (⟨p.2.date, p.2.ref, p.2.value, none⟩ : TRow)))
    .ok { a with data := { a.data with rows := a.data.rows ++ newEntries } }

/-- The `fund` class: a point-in-time value snapshot.  It has `value` and
`date` attributes and nothing else; in particular no `data` attribute. -/
structure fund where
  value : Rat
  date : KDate

/-- A member of a pool: an account or a fund. -/
inductive Member where
  | acc (a : account)
  | fnd (f : fund)

/-- The attribute access `acc.data` in `konto.__init__`: a fund has no
`data` attribute, so Python raises AttributeError. -/
def memberData : Member → Except PyErr Frame
  | .acc a => .ok a.data
  | .fnd _ => .error (.attributeError "data")

/-- The attribute access `acc.value` (both classes define it). -/
def memberValue : Member → Rat
  | .acc a => a.value
  | .fnd f => f.value

/-- The library call `pd.concat`: raises ValueError on an empty list of objects; otherwise
concatenates the rows and takes the union of the columns (the Tags column
exists in the result iff some input frame has it, other rows getting NaN). -/
def pdConcat (frames : List Frame) : Except PyErr Frame :=
  match frames with
  | [] => .error (.valueError "No objects to concatenate")
  | _ =>
    .ok { rows := (frames.map Frame.rows).flatten
          hasTagsCol := frames.any Frame.hasTagsCol }

/-- Stable insertion step for sorting rows by date. -/
def insertRowByDate (e : PyIdx × TRow) :
    List (PyIdx × TRow) → List (PyIdx × TRow)
  | [] => [e]
  | x :: xs =>
    if e.2.date.ltB x.2.date then e :: x :: xs else x :: insertRowByDate e xs

/-- The call `sort_values('Date')` on the concatenated frame: sort rows by date
ascending (pandas leaves tie order unspecified with its default sort kind;
no claim observes tie order). -/
def sortByDate (l : List (PyIdx × TRow)) : List (PyIdx × TRow) :=
  l.foldr insertRowByDate []

/-- A Python value as tested for truthiness by `np.all`: the comprehension
`[lambda acc: acc.data_tagged for acc in self.account_list]` in
`konto.__init__` produces one function object per member, and never calls
them. -/
inductive PyVal where
  | pybool (b : Bool)
  | pyfunc

/-- Python truthiness: a function object is truthy. -/
def PyVal.truthy : PyVal → Bool
  | .pybool b => b
  | .pyfunc => true

/-- The reduction `np.all`: every element truthy (vacuously true on an empty list). -/
def npAll (l : List PyVal) : Bool := l.all PyVal.truthy

/-- The `konto` pool class state. -/
structure konto where
  account_list : List Member
  data : Frame
  data_tagged : Bool
  value : Rat

/-- The constructor `konto.__init__`: concatenate the members' frames (AttributeError if a
fund is among them, ValueError from `pd.concat` if the list is empty), sort
by date, compute `data_tagged = np.all([lambda acc: acc.data_tagged for acc
in account_list])` — a list of function objects, one per member — and
`value = sum(acc.value)`. -/
def konto.init (account_list : List Member) : Except PyErr konto :=
  match account_list.mapM memberData with
  | .error e => .error e
  | .ok frames =>
    match pdConcat frames with
    | .error e => .error e
    | .ok big =>
      .ok { account_list := account_list
            data := { big with rows := sortByDate big.rows }
            data_tagged := npAll (account_list.map (fun _ => PyVal.pyfunc))
            value := ratSum (account_list.map memberValue) }

/-- The method `konto.tagresample` (textually identical to `account.tagresample`). -/
def konto.tagresample (k : konto) (req : List String) (f : Freq) :
    Except PyErr (List (KDate × Rat)) :=
  tagResampleCore k.data_tagged k.data req f

/-- Whether an Except result is an error (an exception propagated). -/
def isErr {ε α : Type} : Except ε α → Bool
  | .error _ => true
  | .ok _ => false

/-!
Concrete states used by the claims: the three-record example of the spec
(§8), small resolver states, and endow scenarios.
-/

/-- The spec's three example records: (2023-01-05, COFFEE, -3.50),
(2023-02-10, COFFEE, -4.00), (2023-02-20, RENT, -800.00). -/
def csvRows3 : List CsvRow :=
  [⟨⟨2023, 1, 5⟩, "COFFEE", mkRat (-7) 2⟩,
   ⟨⟨2023, 2, 10⟩, "COFFEE", mkRat (-4) 1⟩,
   ⟨⟨2023, 2, 20⟩, "RENT", mkRat (-800) 1⟩]

/-- The example account before tagging. -/
def aU : account := account.init csvRows3 ⟨2023, 1, 1⟩ ⟨2023, 2, 28⟩ 0

/-- User answers for tagging `aU`: the first prompt (first COFFEE row) gets
food, the next (RENT) gets housing; the second COFFEE row is memoized. -/
def oracleEx : Nat → List String :=
  fun n => if n = 0 then ["food"] else ["housing"]

/-- The example account after interactive tagging. -/
def aEx : account :=
  match account.tag aU none none oracleEx with
  | .ok p => p.1
  | .error _ => aU

/-- Resolver state for C1: COFFEE has the amount-qualified rule
(COFFEE, -3.50) → food and the plain rule COFFEE → drink. -/
def st1 : TagState :=
  ⟨[("COFFEE", ["drink"])], [(PKey.pair "COFFEE" (mkRat (-7) 2), ["food"])]⟩

/-- Resolver state whose amount-qualified dictionary holds a bare string
key, the only shape that makes the `row[0] in tagdict_on_price` test true. -/
def st1b : TagState := ⟨[], [(PKey.s "PAYPAL", ["gift"])]⟩

/-- Amount-qualified dictionary for C3: PAYPAL is value-sensitive (it has
the rule (PAYPAL, -5) → internal). -/
def stP : PriceDict := [(PKey.pair "PAYPAL" (mkRat (-5) 1), ["internal"])]

/-- Account with two PAYPAL records of different amounts, both unseen as
(reference, amount) keys. -/
def aP : account :=
  account.init
    [⟨⟨2023, 3, 1⟩, "PAYPAL", mkRat (-10) 1⟩, ⟨⟨2023, 3, 5⟩, "PAYPAL", mkRat (-3) 1⟩]
    ⟨2023, 3, 1⟩ ⟨2023, 3, 31⟩ 0

/-- Tagging `aP` with the PAYPAL value-sensitive rule supplied and a user
answering gift to every prompt. -/
def aPtag : Except PyErr (account × Nat) :=
  account.tag aP (some []) (some stP) (fun _ => ["gift"])

/-- A one-record account that has not been tagged. -/
def aX : account :=
  account.init [⟨⟨2023, 1, 5⟩, "X", mkRat 1 1⟩] ⟨2023, 1, 1⟩ ⟨2023, 1, 31⟩ 0

/-- A fund worth 250 on 2023-01-01. -/
def fEx : fund := ⟨mkRat 250 1, ⟨2023, 1, 1⟩⟩

/-- The existing account for the endow scenarios: window 2023-01-01 to
2023-02-28, one record on 2023-02-28. -/
def aW : account :=
  account.init [⟨⟨2023, 2, 28⟩, "RENT", mkRat (-800) 1⟩]
    ⟨2023, 1, 1⟩ ⟨2023, 2, 28⟩ 0

/-- A new-data file with one March record. -/
def marRows : List CsvRow := [⟨⟨2023, 3, 15⟩, "COFFEE", mkRat (-4) 1⟩]

/-- A new-data file whose first record duplicates the 2023-02-28 record
already in the store. -/
def dupRows : List CsvRow :=
  [⟨⟨2023, 2, 28⟩, "RENT", mkRat (-800) 1⟩,
   ⟨⟨2023, 3, 15⟩, "COFFEE", mkRat (-4) 1⟩]

/-- The result of endowing with an overlapping window whose file repeats an
existing date. -/
def aW8 : Except PyErr account :=
  account.endow aW dupRows ⟨2023, 2, 28⟩ ⟨2023, 3, 31⟩ 0

/-!
Theorems: helper lemmas about the embedding, followed by one theorem per
specification claim (with witnesses and counterexamples where applicable).
-/

theorem KDate.ltB_iff (a b : KDate) : a.ltB b = true ↔
    (a.year < b.year ∨ (a.year = b.year ∧
      (a.month < b.month ∨ (a.month = b.month ∧ a.day < b.day)))) :=
  decide_eq_true_iff

theorem ratAdd_eq (a b : Rat) : ratAdd a b = a + b := by
  rw [ratAdd, Rat.add_def]
  simp [Rat.normalize_eq_mkRat]

theorem ratSum_eq (l : List Rat) : ratSum l = l.sum := by
  induction l with
  | nil => rfl
  | cons x xs ih => simp [ratSum, ratAdd_eq, List.sum_cons] at ih ⊢; rw [ih]

/-- C1: for a record whose reference has an amount-qualified rule, resolution
must use the amount-qualified mapping — the exact (reference, amount) tag-set
when present, else one fresh prompt stored under (reference, amount).  The
code does neither: the membership probe compares the bare reference string
against tuple keys and never matches, so the record silently falls back to
the plain mapping (first two conjuncts: the exact key (COFFEE, -3.50) is
present with tags food, yet resolution returns drink from the plain mapping
with no prompt); and on the only key shape that does enter the branch, the
store into the undefined bare name raises NameError (third conjunct). -/
theorem tag_c1_amount_qualified_bypassed :
    st1.tagdict_on_price.lookup (PKey.pair "COFFEE" (mkRat (-7) 2)) = some ["food"]
  ∧ tagOne st1 0 (fun _ => ["prompted"]) "COFFEE" (mkRat (-7) 2)
      = .ok (["drink"], st1, 0)
  ∧ tagOne st1b 0 (fun _ => ["prompted"]) "PAYPAL" (mkRat (-10) 1)
      = .error (.nameError "tagdict_on_price") :=
  ⟨by decide, by decide, by decide⟩

/-- C3: memoization per key — the two unseen keys (PAYPAL, -10) and
(PAYPAL, -3) should trigger one prompt each, stored under the respective
(reference, amount) keys.  The code issues exactly one prompt for both rows
(first conjunct), gives both rows the first answer (second conjunct), stores
that answer under the plain reference (third conjunct) and leaves the
amount-qualified mapping untouched — neither pair key is ever stored (fourth
conjunct). -/
theorem tag_c3_memoization_wrong_key :
    aPtag.toOption.map (fun p => p.2) = some 1
  ∧ aPtag.toOption.map (fun p => p.1.data.rows.map (fun q => q.2.tags))
      = some [some ["gift"], some ["gift"]]
  ∧ aPtag.toOption.map (fun p => p.1.tagdict) = some [("PAYPAL", ["gift"])]
  ∧ aPtag.toOption.map (fun p => p.1.tagdict_on_price) = some stP :=
  ⟨by decide, by decide, by decide, by decide⟩

/-- C5: a pool's fully-tagged flag should be the AND of the members' flags.
The member `aX` is untagged, yet the pool's flag is True: `np.all` is applied
to a list of unevaluated lambda objects (one per member), which are all
truthy. -/
theorem konto_c5_fully_tagged_always_true :
    aX.data_tagged = false
  ∧ (konto.init [Member.acc aX]).toOption.map konto.data_tagged = some true :=
  ⟨rfl, rfl⟩

/-- C9: pool value.  A pool with a fund member cannot even be constructed:
`konto.__init__` evaluates `acc.data` for every member and `fund` has no
`data` attribute, so it raises AttributeError (first conjunct).  For account
members the value is the sum of the members' `value` fields as of
construction (second conjunct), and that field is a snapshot: `endow` adds
records to a member without touching its `value` (third conjunct), so the
pool's stored sum goes stale rather than being recomputed on read. -/
theorem konto_c9_value_sum_snapshot :
    konto.init [Member.fnd fEx] = .error (.attributeError "data")
  ∧ (konto.init [Member.acc aX, Member.acc aU]).toOption.map konto.value
      = some (aX.value + aU.value)
  ∧ (account.endow aU [⟨⟨2023, 3, 1⟩, "Z", mkRat 50 1⟩] ⟨2023, 2, 28⟩ ⟨2023, 3, 31⟩ 0).toOption.map
      account.value = some aU.value := by
  refine ⟨rfl, ?_, rfl⟩
  have h : aX.value + aU.value = ratSum [aX.value, aU.value] := by
    simp [ratSum, ratAdd_eq]
  rw [h]
  rfl

/-- C10: constructing a pool from an empty member list raises: the member
comprehension yields an empty list and `pd.concat` of no objects raises
ValueError, so no pool object (value 0, flag True) is ever produced. -/
theorem konto_c10_empty_pool_raises :
    konto.init [] = .error (.valueError "No objects to concatenate") :=
  rfl

/-- C7 counterexample: the claim says endowing with the abutting window
2023-03-01 to 2023-03-31 against the existing window ending 2023-02-28
succeeds; the code's check `new_from_date > self.to_date` fires
(2023-03-01 > 2023-02-28) and raises. -/
theorem endow_c7_abut_rejected :
    account.endow aW marRows ⟨2023, 3, 1⟩ ⟨2023, 3, 31⟩ 0
      = .error (.valueError "New from_date must be older or the same as old to_date.") :=
  rfl

/-- C7 (amended): endow raises exactly when the new window leaves the
existing window entirely (new_from_date > existing to_date, or new_to_date <
existing from_date), before any state is mutated; the windows must share at
least one day, so a new window starting on the existing to_date succeeds
while one starting the day after fails, as does a disjoint April window. -/
theorem endow_c7_range_check :
    (∀ (a : account) (rows : List CsvRow) (nf nt : KDate) (v : Rat),
        isErr (account.endow a rows nf nt v)
          = (a.to_date.ltB nf || nt.ltB a.from_date))
  ∧ isErr (account.endow aW marRows ⟨2023, 2, 28⟩ ⟨2023, 3, 31⟩ 0) = false
  ∧ isErr (account.endow aW marRows ⟨2023, 3, 1⟩ ⟨2023, 3, 31⟩ 0) = true
  ∧ isErr (account.endow aW [⟨⟨2023, 4, 15⟩, "COFFEE", mkRat (-4) 1⟩]
      ⟨2023, 4, 1⟩ ⟨2023, 4, 30⟩ 0) = true := by
  refine ⟨?_, by decide, by decide, by decide⟩
  intro a rows nf nt v
  unfold account.endow
  cases h1 : a.to_date.ltB nf <;> cases h2 : nt.ltB a.from_date <;>
    simp [h1, h2, isErr]

/-- C8: a record whose timestamp already exists must never be re-inserted.
The dedup mask of endow compares the new frame's positional integer index
(endow never sets its Date index) against the store's datetime index, so
every membership test is False and every row is appended: the store ends up
with both 2023-02-28 records (count 2) and all 3 rows. -/
theorem endow_c8_duplicate_date_reinserted :
    aW8.toOption.map (fun a => (a.data.rows.map (fun p => p.2.date)).count ⟨2023, 2, 28⟩)
      = some 2
  ∧ aW8.toOption.map (fun a => a.data.rows.length) = some 3 :=
  ⟨by decide, by decide⟩

/-!
Lemmas about the aggregation pipeline, used by C2 and C6.
-/

theorem KDate.ltB_of_ne_of_not_ltB {a b : KDate} (hne : ¬(a = b))
    (h : ¬(a.ltB b = true)) : b.ltB a = true := by
  cases a with
  | mk y1 m1 d1 =>
    cases b with
    | mk y2 m2 d2 =>
      simp only [KDate.ltB_iff, KDate.mk.injEq] at *
      omega

theorem insertKey_cons (d x : KDate) (xs : List KDate) :
    insertKey d (x :: xs) =
      if d = x then x :: xs
      else if d.ltB x then d :: x :: xs
      else x :: insertKey d xs := rfl

theorem mem_insertKey {y d : KDate} {l : List KDate} :
    y ∈ insertKey d l ↔ y = d ∨ y ∈ l := by
  induction l with
  | nil => simp [insertKey]
  | cons x xs ih =>
    rw [insertKey_cons]
    by_cases hd : d = x
    · rw [if_pos hd]
      subst hd
      simp only [List.mem_cons]
      tauto
    · rw [if_neg hd]
      by_cases hlt : d.ltB x = true
      · rw [if_pos hlt]
        simp only [List.mem_cons]
      · rw [if_neg hlt]
        simp only [List.mem_cons, ih]
        tauto

theorem chain'_cons_insertKey {x d : KDate} {xs : List KDate}
    (hxd : x.ltB d = true)
    (h : (x :: xs).Chain' (fun a b => a.ltB b = true)) :
    (x :: insertKey d xs).Chain' (fun a b => a.ltB b = true) := by
  induction xs generalizing x with
  | nil => simp [insertKey, hxd]
  | cons y ys ih =>
    by_cases hd : d = y
    · subst hd
      simpa [insertKey] using h
    · rw [List.chain'_cons] at h
      by_cases hlt : d.ltB y = true
      · simp only [insertKey, if_neg hd, if_pos hlt]
        exact List.Chain'.cons hxd (List.Chain'.cons hlt h.2)
      · simp only [insertKey, if_neg hd, if_neg hlt]
        exact List.Chain'.cons h.1
          (ih (KDate.ltB_of_ne_of_not_ltB hd hlt) h.2)

theorem chain'_insertKey {d : KDate} {l : List KDate}
    (h : l.Chain' (fun a b => a.ltB b = true)) :
    (insertKey d l).Chain' (fun a b => a.ltB b = true) := by
  cases l with
  | nil => simp [insertKey]
  | cons x xs =>
    by_cases hd : d = x
    · subst hd
      simpa [insertKey] using h
    · by_cases hlt : d.ltB x = true
      · simp only [insertKey, if_neg hd, if_pos hlt]
        exact List.Chain'.cons hlt h
      · simp only [insertKey, if_neg hd, if_neg hlt]
        exact chain'_cons_insertKey (KDate.ltB_of_ne_of_not_ltB hd hlt) h

theorem chain'_sortedKeys (l : List KDate) :
    (sortedKeys l).Chain' (fun a b => a.ltB b = true) := by
  induction l with
  | nil => simp [sortedKeys]
  | cons x xs ih => exact chain'_insertKey ih

theorem mem_sortedKeys {y : KDate} {l : List KDate} :
    y ∈ sortedKeys l ↔ y ∈ l := by
  induction l with
  | nil => simp [sortedKeys]
  | cons x xs ih =>
    show y ∈ insertKey x (sortedKeys xs) ↔ _
    rw [mem_insertKey, ih]
    simp

theorem tagFilter_eq_keptRows (req : List String) (rows : List TRow)
    (h : rows.all (fun r => r.tags.isSome) = true) :
    tagFilter req rows = .ok (keptRows req rows) := by
  induction rows with
  | nil => rfl
  | cons r rs ih =>
    rw [List.all_cons, Bool.and_eq_true] at h
    obtain ⟨h1, h2⟩ := h
    cases hts : r.tags with
    | none => rw [hts] at h1; simp at h1
    | some ts =>
      simp only [tagFilter, hts, ih h2, keptRows, List.filter_cons]

theorem tagresample_ok (a : account) (req : List String) (f : Freq)
    (h1 : a.data_tagged = true) (h2 : a.data.hasTagsCol = true)
    (h3 : (a.data.rows.map Prod.snd).all (fun r => r.tags.isSome) = true) :
    account.tagresample a req f
      = .ok (resampleSum f (keptRows req (a.data.rows.map Prod.snd))) := by
  unfold account.tagresample tagResampleCore
  rw [h1, h2, tagFilter_eq_keptRows req _ h3]
  simp

theorem keptRows_nil_of_all_some (rows : List TRow)
    (h : rows.all (fun r => r.tags.isSome) = true) :
    keptRows [] rows = rows := by
  rw [keptRows, List.filter_eq_self]
  intro r hr
  have h1 : r.tags.isSome = true := by
    rw [List.all_eq_true] at h
    exact h r hr
  cases hts : r.tags with
  | none => rw [hts] at h1; simp at h1
  | some ts => simp [hts, subsetB]

/-- C2: tag-filtered aggregation keeps exactly the records whose tag-set is
a superset of the required tags (first conjunct: on a fully tagged account,
`tagresample` succeeds with the bucketed sums of `keptRows`, the
superset-filter of the store), buckets the kept records by the calendar
period of their timestamp and sums amounts per bucket (second conjunct:
every emitted pair is the bucket start together with the sum over the kept
records falling in that bucket, the emitted bucket starts are exactly the
buckets of the kept records, and the emission is strictly chronological),
and on the three-record example with required tags food and period month it
yields [(2023-01-01, -3.50), (2023-02-01, -4.00)] (third conjunct). -/
theorem tagresample_c2_filter_bucket_sum :
    (∀ (a : account) (req : List String) (f : Freq),
        a.data_tagged = true → a.data.hasTagsCol = true →
        (a.data.rows.map Prod.snd).all (fun r => r.tags.isSome) = true →
        account.tagresample a req f
          = .ok (resampleSum f (keptRows req (a.data.rows.map Prod.snd))))
  ∧ (∀ (f : Freq) (rows : List TRow),
        (resampleSum f rows).Chain' (fun p q => p.1.ltB q.1 = true)
      ∧ (∀ p ∈ resampleSum f rows,
            p.2 = ratSum ((rows.filter
              (fun r => decide (bucket f r.date = p.1))).map (fun r => r.value)))
      ∧ (∀ dte : KDate,
            (∃ s, (dte, s) ∈ resampleSum f rows)
              ↔ ∃ r ∈ rows, bucket f r.date = dte))
  ∧ account.tagresample aEx ["food"] Freq.month
      = .ok [(⟨2023, 1, 1⟩, mkRat (-7) 2), (⟨2023, 2, 1⟩, mkRat (-4) 1)] := by
  refine ⟨fun a req f h1 h2 h3 => tagresample_ok a req f h1 h2 h3,
    fun f rows => ⟨?_, ?_, ?_⟩, by decide⟩
  · rw [resampleSum, List.chain'_map]
    exact chain'_sortedKeys _
  · intro p hp
    rw [resampleSum] at hp
    obtain ⟨k, hk, rfl⟩ := List.mem_map.mp hp
    rfl
  · intro dte
    constructor
    · rintro ⟨s, hs⟩
      rw [resampleSum] at hs
      obtain ⟨k, hk, heq⟩ := List.mem_map.mp hs
      have hk' : k = dte := congrArg Prod.fst heq
      subst hk'
      rw [mem_sortedKeys] at hk
      obtain ⟨r, hr, hbr⟩ := List.mem_map.mp hk
      exact ⟨r, hr, hbr⟩
    · rintro ⟨r, hr, hbr⟩
      refine ⟨ratSum ((rows.filter
        (fun rr => decide (bucket f rr.date = dte))).map (fun rr => rr.value)), ?_⟩
      rw [resampleSum]
      exact List.mem_map.mpr ⟨dte, mem_sortedKeys.mpr (List.mem_map.mpr ⟨r, hr, hbr⟩), rfl⟩

/-- Witness for C2: the hypotheses of the general conjunct hold at the
tagged example account. -/
theorem tagresample_c2_witness :
    aEx.data_tagged = true
  ∧ account.tagresample aEx ["food"] Freq.month
      = .ok (resampleSum Freq.month (keptRows ["food"] (aEx.data.rows.map Prod.snd))) :=
  ⟨by decide, tagresample_c2_filter_bucket_sum.1 aEx ["food"] Freq.month
    (by decide) (by decide) (by decide)⟩

/-- C6: on a fully tagged account, tag-filtered aggregation with the empty
required tag-set equals plain period resampling of the same data, for every
period code (the empty tag requirement passes every record, so the filtered
store is the whole store). -/
theorem tagresample_c6_empty_eq_resample (a : account) (f : Freq)
    (h1 : a.data_tagged = true) (h2 : a.data.hasTagsCol = true)
    (h3 : (a.data.rows.map Prod.snd).all (fun r => r.tags.isSome) = true) :
    account.tagresample a [] f = .ok (account.resample a f) := by
  rw [tagresample_ok a [] f h1 h2 h3, keptRows_nil_of_all_some _ h3]
  rfl

/-- Witness for C6 at the tagged example account with the month period. -/
theorem tagresample_c6_witness :
    account.tagresample aEx [] Freq.month = .ok (account.resample aEx Freq.month) :=
  tagresample_c6_empty_eq_resample aEx Freq.month (by decide) (by decide) (by decide)

/-- C4: aggregation before full tagging should fail with a NotTagged error
for every period code and required tag-set.  On an Account the guard fires
but the raise itself fails: TagError is an undefined name, so the call
aborts with NameError instead of a NotTagged error (first conjunct).  On a
Pool the guard never fires at all: the pool's `data_tagged` is True even
though its only member is untagged (second conjunct), so aggregation runs
past the guard and dereferencing the missing Tags column raises KeyError
(third conjunct). -/
theorem tagresample_c4_untagged_guard :
    (∀ (req : List String) (f : Freq),
        account.tagresample aU req f = .error (.nameError "TagError"))
  ∧ (konto.init [Member.acc aU]).toOption.map konto.data_tagged = some true
  ∧ (∀ (req : List String) (f : Freq),
        (konto.init [Member.acc aU]).toOption.map
          (fun k => konto.tagresample k req f) = some (.error (.keyError "Tags"))) :=
  ⟨fun req f => rfl, by decide, fun req f => rfl⟩
